import Mathlib

/-!
Shallow embedding of `src/Python_helper_scripts/param_generator.py`
(the Bitbox parameter generator).

The Python module is a code-generation helper: a `ParameterGenerator`
object holds two ordered lists of known parameter names (sliders and
dropdowns) and offers methods that render HTML/JavaScript text fragments
for one parameter described by a `config` dict.

Modelling conventions:
* Python dict configs become a `Config` structure of `Option` fields;
  `config['k']` on a missing key raises `KeyError('k')`, modelled as
  `Except.error (PyError.keyError "k")`; `config.get('k', d)` becomes
  `Option.getD`.
* Values interpolated into f-strings are modelled by their `str()`
  rendering; a dynamically-typed default value is `PyVal` (int or str).
* The mutable `self.param_types` dict becomes explicit state passing:
  methods that mutate it return the new `ParameterGenerator`.  In
  `generate_full_parameter` the state returned on an exception is the
  state at the moment the exception escapes (Python keeps mutations that
  happened before a raise), which is faithful because the only mutation,
  `add_to_lists`, is the last statement of the method.
* The numeric behaviour of the *emitted JavaScript* codec snippets
  (`generate_display_formatter` / `generate_parser`) is embedded over
  exact rationals: `toFixed(f)` and `Math.round` both round to nearest
  with ties toward +infinity, modelled by `mathRound`.
-/

/-- A dynamically-typed Python value as it can appear under the `default`
key of a config dict: an int or a str. -/
inductive PyVal where
  | int : Int → PyVal
  | str : String → PyVal
deriving DecidableEq

/-- Python `str()` rendering of a `PyVal`, as f-string interpolation applies. -/
def pyStr : PyVal → String
  | .int i => toString i
  | .str s => s

/-- The state of a `ParameterGenerator`: the `self.param_types` dict with
its two ordered name lists (source lines 11-20). -/
structure ParameterGenerator where
  slider : List String
  dropdown : List String
deriving DecidableEq

/-- The initial `param_types` catalogue set up in `__init__` (lines 12-20). -/
def ParameterGenerator.init : ParameterGenerator :=
  { slider := ["gaindb", "pitch", "panpos", "dualfilcutoff", "res", "envattack", "envdecay",
               "envsus", "envrel", "lforate", "lfoamount", "samstart", "samlen", "loopstart",
               "loopend", "loopfadeamt", "actslice", "grainsizeperc", "grainscat", "grainpanrnd",
               "graindensity", "grainreadspeed", "gainssrcwin", "rootnote", "fx1send", "fx2send"],
    dropdown := ["cellmode", "loopmodes", "loopmode", "samtrigtype", "polymode", "lfowave",
                 "lfokeytrig", "lfobeatsync", "lforatebeatsync", "midimode", "reverse",
                 "outputbus", "chokegrp", "slicestepmode"] }

/-- `generate_slider_html` (lines 22-31): the slider markup f-string. -/
def generate_slider_html (param_name label : String) (min_val max_val : Int)
    (default_val : PyVal) : String :=
  "<div class=\"param\">\n    <label class=\"param-label\">" ++ label ++
  "</label>\n    <div class=\"param-control\">\n        <input type=\"range\" class=\"slider\" id=\"" ++
  param_name ++ "\" min=\"" ++ toString min_val ++ "\" max=\"" ++ toString max_val ++
  "\" value=\"" ++ pyStr default_val ++
  "\">\n        <span class=\"param-value\" id=\"" ++ param_name ++
  "-val\">0.0%</span>\n    </div>\n</div>"

/-- One `value`/`label` pair from the `options` list of a dropdown config. -/
structure OptionEntry where
  value : String
  label : String
deriving DecidableEq

/-- The per-option f-string inside the list comprehension of
`generate_dropdown_html` (line 36). -/
def dropdown_option_html (opt : OptionEntry) : String :=
  "                <option value=\"" ++ opt.value ++ "\">" ++ opt.label ++ "</option>"

/-- Python `'\n'.join(...)` (line 35). -/
def join_newline : List String → String
  | [] => ""
  | [s] => s
  | s :: rest => s ++ "\n" ++ join_newline rest

/-- `generate_dropdown_html` (lines 33-44): the dropdown markup f-string. -/
def generate_dropdown_html (param_name label : String) (options : List OptionEntry) : String :=
  "<div class=\"param\">\n    <label class=\"param-label\">" ++ label ++
  "</label>\n    <select class=\"select\" id=\"" ++ param_name ++ "\">\n" ++
  join_newline (options.map dropdown_option_html) ++
  "\n    </select>\n</div>"

/-- The `**kwargs` option bag of the codec methods, with each value kept in
its `str()` rendering (f-strings interpolate the values textually).
Absent keys are `none`; `kwargs.get(k, d)` becomes `Option.getD`. -/
structure Kwargs where
  divisor : Option String := none
  min_hz : Option String := none
  max_hz : Option String := none
  custom_code : Option String := none
deriving DecidableEq

/-- `generate_display_formatter` (lines 46-67): the `formatters` dict plus
the `formatters.get(format_type, formatters['percentage'])` fallback. -/
def generate_display_formatter (param_name format_type : String) (kwargs : Kwargs) : String :=
  if format_type = "percentage" then
    "case '" ++ param_name ++ "':\n    text = (val / 10).toFixed(1) + '%';\n    break;"
  else if format_type = "db" then
    "case '" ++ param_name ++
      "':\n    text = (val >= 0 ? '+' : '') + (val / 1000).toFixed(1) + ' dB';\n    break;"
  else if format_type = "semitones" then
    "case '" ++ param_name ++
      "':\n    text = (val >= 0 ? '+' : '') + (val / 1000).toFixed(2) + ' st';\n    break;"
  else if format_type = "ms" then
    "case '" ++ param_name ++ "':\n    text = (val / " ++ kwargs.divisor.getD "1" ++
      ").toFixed(1) + ' ms';\n    break;"
  else if format_type = "hz" then
    "case '" ++ param_name ++ "':\n    const hz_" ++ param_name ++ " = " ++
      kwargs.min_hz.getD "0.1" ++ " + ((val / 1000) * (" ++ kwargs.max_hz.getD "20" ++
      " - " ++ kwargs.min_hz.getD "0.1" ++ "));\n    text = hz_" ++ param_name ++
      ".toFixed(2) + ' Hz';\n    break;"
  else if format_type = "custom" then
    kwargs.custom_code.getD "// Add custom formatting here"
  else
    "case '" ++ param_name ++ "':\n    text = (val / 10).toFixed(1) + '%';\n    break;"

/-- `generate_parser` (lines 69-81): the `parsers` dict plus the
`parsers.get(format_type, parsers['percentage'])` fallback.  (Renamed with
a `_code` suffix for the Lean development.) -/
def generate_parser_code (param_name format_type : String) (kwargs : Kwargs) : String :=
  if format_type = "percentage" then "return Math.round(val * 10);"
  else if format_type = "db" then "return Math.round(val * 1000);"
  else if format_type = "semitones" then "return Math.round(val * 1000);"
  else if format_type = "ms" then
    "return Math.round(val * " ++ kwargs.divisor.getD "1" ++ ");"
  else if format_type = "hz" then
    "const hz = parseFloat(text);\nif (isNaN(hz) || hz < " ++ kwargs.min_hz.getD "0.1" ++
      " || hz > " ++ kwargs.max_hz.getD "20" ++ ") return null;\nreturn Math.round(((hz - " ++
      kwargs.min_hz.getD "0.1" ++ ") / (" ++ kwargs.max_hz.getD "20" ++ " - " ++
      kwargs.min_hz.getD "0.1" ++ ")) * 1000);"
  else if format_type = "custom" then kwargs.custom_code.getD "return Math.round(val);"
  else "return Math.round(val * 10);"

/-- The dict returned by `add_to_lists` (lines 90-95): four named views of
the two membership lists. -/
structure UpdatedLists where
  setupParameterListeners_sliders : List String
  setupParameterListeners_dropdowns : List String
  loadParamsToModal_sliders : List String
  loadParamsToModal_dropdowns : List String
deriving DecidableEq

/-- `add_to_lists` (lines 83-95): appends `param_name` to the slider list
when `param_type == 'slider'`, otherwise to the dropdown list, and returns
the four-view dict.  Returns the mutated generator explicitly. -/
def add_to_lists (self : ParameterGenerator) (param_name param_type : String) :
    ParameterGenerator × UpdatedLists :=
  let g : ParameterGenerator :=
    if param_type = "slider" then { self with slider := self.slider ++ [param_name] }
    else { self with dropdown := self.dropdown ++ [param_name] }
  (g, { setupParameterListeners_sliders := g.slider,
        setupParameterListeners_dropdowns := g.dropdown,
        loadParamsToModal_sliders := g.slider,
        loadParamsToModal_dropdowns := g.dropdown })

/-- `generate_default_param` (lines 97-99): the default entry f-string
(note: the value is always wrapped in single quotes). -/
def generate_default_param (param_name : String) (default_value : PyVal) : String :=
  param_name ++ ": '" ++ pyStr default_value ++ "'"

/-- A Python exception escaping from `generate_full_parameter`: a
`KeyError` on a missing config key. -/
inductive PyError where
  | keyError : String → PyError
deriving DecidableEq

/-- A parameter config dict.  Keys the code reads; a missing key is `none`. -/
structure Config where
  name : Option String := none
  type : Option String := none
  label : Option String := none
  min : Option Int := none
  max : Option Int := none
  default : Option PyVal := none
  format : Option String := none
  format_options : Option Kwargs := none
  options : Option (List OptionEntry) := none
deriving DecidableEq

/-- The `result` dict built by `generate_full_parameter` (lines 106-138).
`display_formatter` and `parser` are present only on the slider branch. -/
structure Result where
  param_name : String
  default_param : String
  html : String
  display_formatter : Option String := none
  parser : Option String := none
  updated_lists : UpdatedLists
deriving DecidableEq

/-- `generate_full_parameter` (lines 101-138).  Reads `config['name']` and
`config['type']`, builds the default entry, then branches: `'slider'`
renders slider HTML plus formatter and parser snippets; any other type is
the dropdown branch.  The last statement calls `add_to_lists`; every
`KeyError` escapes before that, so the state component of an error result
is the caller's state unchanged. -/
def generate_full_parameter (self : ParameterGenerator) (config : Config) :
    ParameterGenerator × Except PyError Result :=
  match config.name with
  | none => (self, .error (.keyError "name"))
  | some param_name =>
    match config.type with
    | none => (self, .error (.keyError "type"))
    | some param_type =>
      let default_param := generate_default_param param_name (config.default.getD (.str "0"))
      if param_type = "slider" then
        match config.label with
        | none => (self, .error (.keyError "label"))
        | some label =>
          match config.min with
          | none => (self, .error (.keyError "min"))
          | some min_val =>
            match config.max with
            | none => (self, .error (.keyError "max"))
            | some max_val =>
              let html := generate_slider_html param_name label min_val max_val
                (config.default.getD (.int 0))
              let fmt := generate_display_formatter param_name (config.format.getD "percentage")
                (config.format_options.getD {})
              let prs := generate_parser_code param_name (config.format.getD "percentage")
                (config.format_options.getD {})
              let gl := add_to_lists self param_name param_type
              (gl.1, .ok { param_name := param_name, default_param := default_param,
                           html := html, display_formatter := some fmt, parser := some prs,
                           updated_lists := gl.2 })
      else
        match config.label with
        | none => (self, .error (.keyError "label"))
        | some label =>
          match config.options with
          | none => (self, .error (.keyError "options"))
          | some options =>
            let html := generate_dropdown_html param_name label options
            let gl := add_to_lists self param_name param_type
            (gl.1, .ok { param_name := param_name, default_param := default_param,
                         html := html, updated_lists := gl.2 })

/-!
Numeric semantics of the emitted JavaScript codec snippets, over exact
rationals.  `Math.round(x)` and the rounding of `x.toFixed(f)` both pick
the nearest integer (multiple of `10 ^ (-f)`), ties toward plus infinity.
-/

/-- JavaScript `Math.round`: floor of `x + 1/2`. -/
def mathRound (x : ℚ) : ℤ := ⌊x + 1 / 2⌋

/-- The numeric value displayed by `x.toFixed(f)`: `x` rounded to `f`
decimal digits. -/
def toFixedQ (f : ℕ) (x : ℚ) : ℚ := (mathRound (x * 10 ^ f) : ℚ) / 10 ^ f

/-- Forward transform of the `percentage` formatter (line 50):
`(val / 10).toFixed(1)`. -/
def fwdPercentage (val : ℤ) : ℚ := toFixedQ 1 ((val : ℚ) / 10)

/-- Inverse transform of the `percentage` parser (line 72):
`Math.round(val * 10)`. -/
def invPercentage (val : ℚ) : ℤ := mathRound (val * 10)

/-- Forward transform of the `db` formatter (line 53):
`(val / 1000).toFixed(1)`. -/
def fwdDb (val : ℤ) : ℚ := toFixedQ 1 ((val : ℚ) / 1000)

/-- Inverse transform of the `db` parser (line 73): `Math.round(val * 1000)`. -/
def invDb (val : ℚ) : ℤ := mathRound (val * 1000)

/-- Forward transform of the `semitones` formatter (line 56):
`(val / 1000).toFixed(2)`. -/
def fwdSemitones (val : ℤ) : ℚ := toFixedQ 2 ((val : ℚ) / 1000)

/-- Inverse transform of the `semitones` parser (line 74):
`Math.round(val * 1000)`. -/
def invSemitones (val : ℚ) : ℤ := mathRound (val * 1000)

/-- Forward transform of the `ms` formatter (line 59):
`(val / divisor).toFixed(1)`. -/
def fwdMs (divisor : ℚ) (val : ℤ) : ℚ := toFixedQ 1 ((val : ℚ) / divisor)

/-- Inverse transform of the `ms` parser (line 75):
`Math.round(val * divisor)`. -/
def invMs (divisor : ℚ) (val : ℚ) : ℤ := mathRound (val * divisor)

/-- Forward transform of the `hz` formatter (lines 62-63):
`(min_hz + ((val / 1000) * (max_hz - min_hz))).toFixed(2)`. -/
def fwdHz (min_hz max_hz : ℚ) (val : ℤ) : ℚ :=
  toFixedQ 2 (min_hz + ((val : ℚ) / 1000) * (max_hz - min_hz))

/-- Inverse transform of the `hz` parser (lines 76-78): rejects display
values outside `[min_hz, max_hz]` (returns `null`), otherwise linearly
remaps back and rounds. -/
def invHz (min_hz max_hz : ℚ) (hz : ℚ) : Option ℤ :=
  if hz < min_hz ∨ hz > max_hz then none
  else some (mathRound (((hz - min_hz) / (max_hz - min_hz)) * 1000))

/-!
Concrete configs from `main` (lines 141-183), used as concrete inputs.
-/

/-- Example 1 of `main` (lines 146-154): the distortion slider config. -/
def distortionConfig : Config :=
  { name := some "distortion", type := some "slider", label := some "Distortion",
    min := some 0, max := some 1000, default := some (.int 0), format := some "percentage" }

/-- Example 2 of `main` (lines 157-168): the filtertype dropdown config. -/
def filtertypeConfig : Config :=
  { name := some "filtertype", type := some "dropdown", label := some "Filter Type",
    default := some (.str "0"),
    options := some [⟨"0", "Low Pass"⟩, ⟨"1", "High Pass"⟩, ⟨"2", "Band Pass"⟩, ⟨"3", "Notch"⟩] }

/-!
Structural helper lemmas.
-/

/-- `add_to_lists` always grows the total membership by one. -/
theorem add_to_lists_total_length (g : ParameterGenerator) (pn pt : String) :
    (add_to_lists g pn pt).1.slider.length + (add_to_lists g pn pt).1.dropdown.length
      = g.slider.length + g.dropdown.length + 1 := by
  by_cases h : pt = "slider" <;> simp [add_to_lists, h] <;> omega

/-- Shape of a successful `generate_full_parameter` call: the config must
have `name` and `type`; the new state and the membership views come from
`add_to_lists`; and the remaining artifacts are determined by the config
alone, per branch. -/
theorem gfp_ok_elim {g g' : ParameterGenerator} {c : Config} {r : Result}
    (h : generate_full_parameter g c = (g', Except.ok r)) :
    ∃ pn pt, c.name = some pn ∧ c.type = some pt ∧
      g' = (add_to_lists g pn pt).1 ∧
      r.param_name = pn ∧
      r.default_param = generate_default_param pn (c.default.getD (.str "0")) ∧
      r.updated_lists = (add_to_lists g pn pt).2 ∧
      ((pt = "slider" ∧
        ∃ l mn mx, c.label = some l ∧ c.min = some mn ∧ c.max = some mx ∧
          r.html = generate_slider_html pn l mn mx (c.default.getD (.int 0)) ∧
          r.display_formatter = some (generate_display_formatter pn
            (c.format.getD "percentage") (c.format_options.getD {})) ∧
          r.parser = some (generate_parser_code pn
            (c.format.getD "percentage") (c.format_options.getD {}))) ∨
       (pt ≠ "slider" ∧
        ∃ l os, c.label = some l ∧ c.options = some os ∧
          r.html = generate_dropdown_html pn l os ∧
          r.display_formatter = none ∧ r.parser = none)) := by
  rcases hn : c.name with _ | pn
  · simp [generate_full_parameter, hn] at h
  rcases ht : c.type with _ | pt
  · simp [generate_full_parameter, hn, ht] at h
  refine ⟨pn, pt, rfl, rfl, ?_⟩
  by_cases hs : pt = "slider"
  · subst hs
    rcases hl : c.label with _ | l
    · simp [generate_full_parameter, hn, ht, hl] at h
    rcases hmn : c.min with _ | mn
    · simp [generate_full_parameter, hn, ht, hl, hmn] at h
    rcases hmx : c.max with _ | mx
    · simp [generate_full_parameter, hn, ht, hl, hmn, hmx] at h
    simp only [generate_full_parameter, hn, ht, hl, hmn, hmx, if_true,
      Prod.mk.injEq, Except.ok.injEq] at h
    obtain ⟨hg, hr⟩ := h
    subst hg; subst hr
    exact ⟨rfl, rfl, rfl, rfl, Or.inl ⟨rfl, l, mn, mx, rfl, rfl, rfl, rfl, rfl, rfl⟩⟩
  · rcases hl : c.label with _ | l
    · simp [generate_full_parameter, hn, ht, hs, hl] at h
    rcases ho : c.options with _ | os
    · simp [generate_full_parameter, hn, ht, hs, hl, ho] at h
    simp only [generate_full_parameter, hn, ht, hl, ho, hs, if_false,
      Prod.mk.injEq, Except.ok.injEq] at h
    obtain ⟨hg, hr⟩ := h
    subst hg; subst hr
    exact ⟨rfl, rfl, rfl, rfl, Or.inr ⟨hs, l, os, rfl, rfl, rfl, rfl, rfl⟩⟩

/-!
String-infix helper lemmas, used to reason about where descriptor text
lands inside the rendered markup.
-/

/-- `toList` distributes over string append. -/
theorem strToList_append (s t : String) : (s ++ t).toList = s.toList ++ t.toList := by
  simp [String.toList]

/-- An infix of `m` is an infix of `m ++ s`. -/
theorem infix_str_right {x : List Char} {m : String} (h : x <:+: m.toList) (s : String) :
    x <:+: (m ++ s).toList := by
  obtain ⟨u, v, huv⟩ := h
  exact ⟨u, v ++ s.toList, by rw [strToList_append, ← huv]; simp⟩

/-- An infix of `m` is an infix of `s ++ m`. -/
theorem infix_str_left (s : String) {x : List Char} {m : String} (h : x <:+: m.toList) :
    x <:+: (s ++ m).toList := by
  obtain ⟨u, v, huv⟩ := h
  exact ⟨s.toList ++ u, v, by rw [strToList_append, ← huv]; simp⟩

/-- A member of the joined list appears verbatim in the join. -/
theorem mem_infix_join_newline {s : String} : ∀ {l : List String}, s ∈ l →
    s.toList <:+: (join_newline l).toList := by
  intro l
  induction l with
  | nil => intro h; cases h
  | cons a rest ih =>
    intro h
    rcases List.mem_cons.mp h with h | h
    · subst h
      cases rest with
      | nil => exact List.infix_rfl
      | cons b t =>
        show s.toList <:+: ((s ++ "\n") ++ join_newline (b :: t)).toList
        exact infix_str_right (infix_str_right List.infix_rfl "\n") _
    · cases rest with
      | nil => cases h
      | cons b t =>
        show s.toList <:+: ((a ++ "\n") ++ join_newline (b :: t)).toList
        exact infix_str_left _ (ih h)

/-- A fallback `Result` used only to unwrap `Except.ok` values on concrete runs. -/
def resFallback : Result :=
  { param_name := "", default_param := "", html := "",
    updated_lists := ⟨[], [], [], []⟩ }

/-- The generator state after compiling the filtertype example from `init`. -/
def filtertypeGen : ParameterGenerator :=
  (generate_full_parameter ParameterGenerator.init filtertypeConfig).1

/-- The artifact bundle of the filtertype example run. -/
def filtertypeRes : Result :=
  (generate_full_parameter ParameterGenerator.init filtertypeConfig).2.toOption.getD resFallback

/-- C7: in every bundle returned by a successful compilation, the four
membership views are pairwise identical within a kind: the
`setupParameterListeners` slider list equals the `loadParamsToModal`
slider list, and likewise for the dropdown lists. -/
theorem C7_membership_views_identical {g g' : ParameterGenerator} {c : Config} {r : Result}
    (h : generate_full_parameter g c = (g', Except.ok r)) :
    r.updated_lists.setupParameterListeners_sliders
        = r.updated_lists.loadParamsToModal_sliders ∧
    r.updated_lists.setupParameterListeners_dropdowns
        = r.updated_lists.loadParamsToModal_dropdowns := by
  obtain ⟨pn, pt, _, _, _, _, _, hul, _⟩ := gfp_ok_elim h
  rw [hul]
  exact ⟨rfl, rfl⟩

/-- Witness for C7: the filtertype example run, evaluated. -/
theorem C7_membership_views_identical_witness :
    filtertypeRes.updated_lists.setupParameterListeners_sliders
        = filtertypeRes.updated_lists.loadParamsToModal_sliders ∧
    filtertypeRes.updated_lists.setupParameterListeners_dropdowns
        = filtertypeRes.updated_lists.loadParamsToModal_dropdowns :=
  @C7_membership_views_identical ParameterGenerator.init filtertypeGen filtertypeConfig
    filtertypeRes (by rfl)

/-- C10: the value span of every generated slider is hard-coded: whatever
the name, label, range, default value (and hence codec) are, the rendered
markup ends with the constant text closing the span with `0.0%` inside.
In particular the span content is never derived from the default value. -/
theorem C10_value_span_constant (param_name label : String) (min_val max_val : Int)
    (default_val : PyVal) :
    "-val\">0.0%</span>\n    </div>\n</div>".toList <:+
      (generate_slider_html param_name label min_val max_val default_val).toList :=
  ⟨("<div class=\"param\">\n    <label class=\"param-label\">" ++ label ++
    "</label>\n    <div class=\"param-control\">\n        <input type=\"range\" class=\"slider\" id=\"" ++
    param_name ++ "\" min=\"" ++ toString min_val ++ "\" max=\"" ++ toString max_val ++
    "\" value=\"" ++ pyStr default_val ++
    "\">\n        <span class=\"param-value\" id=\"" ++ param_name).toList,
   (strToList_append _ _).symm⟩

/-- C5: an unregistered codec name falls back to the `percentage` codec:
both the display formatter and the parser snippet equal the ones produced
by explicitly requesting `percentage` with the same name and options. -/
theorem C5_unknown_codec_fallback (param_name format_type : String) (kwargs : Kwargs)
    (h : format_type ∉ (["percentage", "db", "semitones", "ms", "hz", "custom"] : List String)) :
    generate_display_formatter param_name format_type kwargs
        = generate_display_formatter param_name "percentage" kwargs ∧
    generate_parser_code param_name format_type kwargs
        = generate_parser_code param_name "percentage" kwargs := by
  simp only [List.mem_cons, List.not_mem_nil, or_false, not_or] at h
  obtain ⟨h1, h2, h3, h4, h5, h6⟩ := h
  constructor <;>
    simp [generate_display_formatter, generate_parser_code, h1, h2, h3, h4, h5, h6]

/-- Witness for C5: the unregistered name `frobnicate`. -/
theorem C5_unknown_codec_fallback_witness :
    ("frobnicate" ∉ (["percentage", "db", "semitones", "ms", "hz", "custom"] : List String)) ∧
    (generate_display_formatter "cutoff" "frobnicate" {}
        = generate_display_formatter "cutoff" "percentage" {} ∧
     generate_parser_code "cutoff" "frobnicate" {}
        = generate_parser_code "cutoff" "percentage" {}) :=
  ⟨by decide, C5_unknown_codec_fallback "cutoff" "frobnicate" {} (by decide)⟩

/-- C6: whenever `generate_full_parameter` fails (any `KeyError` during
validation or rendering), the registry snapshot is unchanged: the
membership lists are only mutated by `add_to_lists`, the last step, after
all rendering succeeded. -/
theorem C6_snapshot_unchanged_on_error (g : ParameterGenerator) (c : Config) (e : PyError)
    (h : (generate_full_parameter g c).2 = Except.error e) :
    (generate_full_parameter g c).1 = g := by
  rcases hn : c.name with _ | pn
  · simp [generate_full_parameter, hn]
  rcases ht : c.type with _ | pt
  · simp [generate_full_parameter, hn, ht]
  by_cases hs : pt = "slider"
  · subst hs
    rcases hl : c.label with _ | l
    · simp [generate_full_parameter, hn, ht, hl]
    rcases hmn : c.min with _ | mn
    · simp [generate_full_parameter, hn, ht, hl, hmn]
    rcases hmx : c.max with _ | mx
    · simp [generate_full_parameter, hn, ht, hl, hmn, hmx]
    · exfalso
      simp [generate_full_parameter, hn, ht, hl, hmn, hmx] at h
  · rcases hl : c.label with _ | l
    · simp [generate_full_parameter, hn, ht, hs, hl]
    rcases ho : c.options with _ | os
    · simp [generate_full_parameter, hn, ht, hs, hl, ho]
    · exfalso
      simp [generate_full_parameter, hn, ht, hs, hl, ho] at h

/-- A slider config with no `label` key: rendering raises `KeyError('label')`. -/
def missingLabelConfig : Config := { name := some "broken", type := some "slider" }

/-- Witness for C6: the failing slider config with a missing label leaves
the initial snapshot untouched. -/
theorem C6_snapshot_unchanged_on_error_witness :
    ((generate_full_parameter ParameterGenerator.init missingLabelConfig).2
        = Except.error (PyError.keyError "label")) ∧
    (generate_full_parameter ParameterGenerator.init missingLabelConfig).1
        = ParameterGenerator.init :=
  ⟨by rfl, C6_snapshot_unchanged_on_error ParameterGenerator.init missingLabelConfig
    (PyError.keyError "label") (by rfl)⟩

/-- Decompose a string to exhibit an infix. -/
theorem str_infix (u x v : String) {w : String}
    (h : w.toList = u.toList ++ (x.toList ++ v.toList)) : x.toList <:+: w.toList :=
  ⟨u.toList, v.toList, by rw [h, List.append_assoc]⟩

set_option maxRecDepth 10000 in
/-- Counterexample to C2: a label containing `<` and `&` is interpolated
into the slider and dropdown markup raw; no escaped form (`&lt;`, `&amp;`)
appears anywhere in the rendered markup. -/
theorem C2_counterexample :
    ("a<b&c".toList <:+:
        (generate_slider_html "x" "a<b&c" 0 10 (.int 0)).toList) ∧
    ¬ ("&lt;".toList <:+:
        (generate_slider_html "x" "a<b&c" 0 10 (.int 0)).toList) ∧
    ¬ ("&amp;".toList <:+:
        (generate_slider_html "x" "a<b&c" 0 10 (.int 0)).toList) ∧
    ("a<b&c".toList <:+:
        (generate_dropdown_html "y" "L" [⟨"<0>", "a<b&c"⟩]).toList) ∧
    ¬ ("&lt;".toList <:+:
        (generate_dropdown_html "y" "L" [⟨"<0>", "a<b&c"⟩]).toList) := by
  decide

/-- C2 amended: descriptor text is interpolated into the markup verbatim,
with no escaping of markup-reserved characters: the raw label always
appears as a contiguous infix of the slider and dropdown markup, and every
option's raw value and label appear as contiguous infixes of the dropdown
markup. -/
theorem C2_text_interpolated_raw (param_name label : String) (min_val max_val : Int)
    (default_val : PyVal) (options : List OptionEntry) (opt : OptionEntry)
    (h : opt ∈ options) :
    label.toList <:+:
      (generate_slider_html param_name label min_val max_val default_val).toList ∧
    label.toList <:+: (generate_dropdown_html param_name label options).toList ∧
    opt.value.toList <:+: (generate_dropdown_html param_name label options).toList ∧
    opt.label.toList <:+: (generate_dropdown_html param_name label options).toList := by
  have hval : opt.value.toList <:+: (dropdown_option_html opt).toList :=
    str_infix "                <option value=\"" opt.value
      ("\">" ++ opt.label ++ "</option>")
      (by simp only [dropdown_option_html, strToList_append, List.append_assoc])
  have hlab : opt.label.toList <:+: (dropdown_option_html opt).toList :=
    str_infix ("                <option value=\"" ++ opt.value ++ "\">") opt.label
      "</option>"
      (by simp only [dropdown_option_html, strToList_append, List.append_assoc])
  have hjoin : (dropdown_option_html opt).toList <:+:
      (join_newline (options.map dropdown_option_html)).toList :=
    mem_infix_join_newline (List.mem_map_of_mem dropdown_option_html h)
  have hlift : ∀ {x : List Char},
      x <:+: (join_newline (options.map dropdown_option_html)).toList →
      x <:+: (generate_dropdown_html param_name label options).toList := by
    intro x hx
    exact infix_str_right
      (infix_str_left ("<div class=\"param\">\n    <label class=\"param-label\">" ++ label ++
        "</label>\n    <select class=\"select\" id=\"" ++ param_name ++ "\">\n") hx)
      "\n    </select>\n</div>"
  refine ⟨?_, ?_, hlift (hval.trans hjoin), hlift (hlab.trans hjoin)⟩
  · exact str_infix "<div class=\"param\">\n    <label class=\"param-label\">" label
      ("</label>\n    <div class=\"param-control\">\n        <input type=\"range\" class=\"slider\" id=\"" ++
        param_name ++ "\" min=\"" ++ toString min_val ++ "\" max=\"" ++ toString max_val ++
        "\" value=\"" ++ pyStr default_val ++
        "\">\n        <span class=\"param-value\" id=\"" ++ param_name ++
        "-val\">0.0%</span>\n    </div>\n</div>")
      (by simp only [generate_slider_html, strToList_append, List.append_assoc])
  · exact str_infix "<div class=\"param\">\n    <label class=\"param-label\">" label
      ("</label>\n    <select class=\"select\" id=\"" ++ param_name ++ "\">\n" ++
        join_newline (options.map dropdown_option_html) ++ "\n    </select>\n</div>")
      (by simp only [generate_dropdown_html, strToList_append, List.append_assoc])

/-- Witness for C2 amended: a reserved-character label and the first
filtertype option, evaluated on concrete inputs. -/
theorem C2_text_interpolated_raw_witness :
    ((⟨"0", "Low Pass"⟩ : OptionEntry) ∈
        [(⟨"0", "Low Pass"⟩ : OptionEntry), ⟨"1", "High Pass"⟩]) ∧
    ("a<b&c".toList <:+: (generate_slider_html "x" "a<b&c" 0 10 (.int 0)).toList ∧
     "a<b&c".toList <:+:
       (generate_dropdown_html "x" "a<b&c"
         [⟨"0", "Low Pass"⟩, ⟨"1", "High Pass"⟩]).toList ∧
     "0".toList <:+:
       (generate_dropdown_html "x" "a<b&c"
         [⟨"0", "Low Pass"⟩, ⟨"1", "High Pass"⟩]).toList ∧
     "Low Pass".toList <:+:
       (generate_dropdown_html "x" "a<b&c"
         [⟨"0", "Low Pass"⟩, ⟨"1", "High Pass"⟩]).toList) :=
  ⟨by decide,
   C2_text_interpolated_raw "x" "a<b&c" 0 10 (.int 0)
     [⟨"0", "Low Pass"⟩, ⟨"1", "High Pass"⟩] ⟨"0", "Low Pass"⟩ (by decide)⟩

/-- The bundle produced by the dropdown branch, as one abbreviation: name,
default entry, markup, no formatter or parser, and the four membership
views over the given slider and dropdown lists. -/
def mkDropdownResult (n dp h : String) (sl dl : List String) : Result :=
  { param_name := n, default_param := dp, html := h,
    display_formatter := none, parser := none,
    updated_lists := { setupParameterListeners_sliders := sl,
                       setupParameterListeners_dropdowns := dl,
                       loadParamsToModal_sliders := sl,
                       loadParamsToModal_dropdowns := dl } }

/-- Shape of the dropdown (non-slider) branch of `generate_full_parameter`
when all required keys are present. -/
theorem gfp_dropdown_eq (g : ParameterGenerator) (c : Config) (n t l : String)
    (os : List OptionEntry) (hn : c.name = some n) (ht : c.type = some t)
    (hs : t ≠ "slider") (hl : c.label = some l) (ho : c.options = some os) :
    generate_full_parameter g c =
      ({ slider := g.slider, dropdown := g.dropdown ++ [n] },
       Except.ok (mkDropdownResult n
         (generate_default_param n (c.default.getD (.str "0")))
         (generate_dropdown_html n l os) g.slider (g.dropdown ++ [n]))) := by
  simp [generate_full_parameter, hn, ht, hs, hl, ho, add_to_lists, mkDropdownResult]

/-- C9: every config whose `type` is anything other than `'slider'` takes
the dropdown branch: it requires `label` and `options` (failing with the
corresponding `KeyError` when absent), renders dropdown markup, emits no
formatter or parser artifact, and appends the name to the dropdown
membership list while the slider list is untouched. -/
theorem C9_nonslider_is_dropdown (g : ParameterGenerator) (c : Config) (n t : String)
    (hn : c.name = some n) (ht : c.type = some t) (hs : t ≠ "slider") :
    (c.label = none → generate_full_parameter g c = (g, .error (.keyError "label"))) ∧
    (∀ l, c.label = some l → c.options = none →
        generate_full_parameter g c = (g, .error (.keyError "options"))) ∧
    (∀ l os, c.label = some l → c.options = some os →
        generate_full_parameter g c =
          ({ slider := g.slider, dropdown := g.dropdown ++ [n] },
           Except.ok (mkDropdownResult n
             (generate_default_param n (c.default.getD (.str "0")))
             (generate_dropdown_html n l os) g.slider (g.dropdown ++ [n])))) := by
  refine ⟨?_, ?_, ?_⟩
  · intro hl; simp [generate_full_parameter, hn, ht, hs, hl]
  · intro l hl ho; simp [generate_full_parameter, hn, ht, hs, hl, ho]
  · intro l os hl ho; exact gfp_dropdown_eq g c n t l os hn ht hs hl ho

/-- A config with the misspelled type `'continuous'`: the code still takes
the dropdown branch. -/
def contTypeConfig : Config :=
  { name := some "wobble", type := some "continuous", label := some "Wobble",
    options := some [⟨"0", "Off"⟩] }

/-- Witness for C9: the `'continuous'`-typed config compiles as a dropdown. -/
theorem C9_nonslider_is_dropdown_witness :
    generate_full_parameter ParameterGenerator.init contTypeConfig =
      ({ slider := ParameterGenerator.init.slider,
         dropdown := ParameterGenerator.init.dropdown ++ ["wobble"] },
       Except.ok (mkDropdownResult "wobble"
         (generate_default_param "wobble" (.str "0"))
         (generate_dropdown_html "wobble" "Wobble" [⟨"0", "Off"⟩])
         ParameterGenerator.init.slider
         (ParameterGenerator.init.dropdown ++ ["wobble"]))) :=
  (C9_nonslider_is_dropdown ParameterGenerator.init contTypeConfig "wobble" "continuous"
    rfl rfl (by decide)).2.2 "Wobble" [⟨"0", "Off"⟩] rfl rfl

/-- A slider config named `xdup`. -/
def xSliderConfig : Config :=
  { name := some "xdup", type := some "slider", label := some "X",
    min := some 0, max := some 10 }

/-- A dropdown config with the same name `xdup`. -/
def xDropdownConfig : Config :=
  { name := some "xdup", type := some "dropdown", label := some "X",
    options := some [⟨"0", "A"⟩] }

/-- Counterexample to C3: after compiling `xdup` as a slider, compiling a
`xdup` dropdown does not fail (the code defines no `InvalidDescriptorError`
and never checks the snapshot): the second call succeeds and the name ends
up in both kind lists. -/
theorem C3_counterexample :
    ("xdup" ∈ (generate_full_parameter ParameterGenerator.init xSliderConfig).1.slider) ∧
    ((generate_full_parameter
        (generate_full_parameter ParameterGenerator.init xSliderConfig).1
        xDropdownConfig).2.toOption.isSome = true) ∧
    ("xdup" ∈ (generate_full_parameter
        (generate_full_parameter ParameterGenerator.init xSliderConfig).1
        xDropdownConfig).1.dropdown) := by
  decide

/-- C3 amended: compiling a descriptor whose name is already registered
under the other kind does not fail: there is no uniqueness check, the call
succeeds and appends the name to the second kind's list, so the name is
then present in both kind lists. -/
theorem C3_same_name_other_kind_succeeds (g : ParameterGenerator) (c : Config)
    (n t l : String) (os : List OptionEntry) (hmem : n ∈ g.slider)
    (hn : c.name = some n) (ht : c.type = some t) (hs : t ≠ "slider")
    (hl : c.label = some l) (ho : c.options = some os) :
    (generate_full_parameter g c).2 =
        Except.ok (mkDropdownResult n
          (generate_default_param n (c.default.getD (.str "0")))
          (generate_dropdown_html n l os) g.slider (g.dropdown ++ [n])) ∧
    n ∈ (generate_full_parameter g c).1.slider ∧
    n ∈ (generate_full_parameter g c).1.dropdown := by
  rw [gfp_dropdown_eq g c n t l os hn ht hs hl ho]
  exact ⟨rfl, hmem, by simp⟩

/-- Witness for C3 amended: the `xdup` slider-then-dropdown run. -/
theorem C3_same_name_other_kind_succeeds_witness :
    ((generate_full_parameter
        (generate_full_parameter ParameterGenerator.init xSliderConfig).1
        xDropdownConfig).2 =
      Except.ok (mkDropdownResult "xdup"
        (generate_default_param "xdup" (.str "0"))
        (generate_dropdown_html "xdup" "X" [⟨"0", "A"⟩])
        (generate_full_parameter ParameterGenerator.init xSliderConfig).1.slider
        ((generate_full_parameter ParameterGenerator.init xSliderConfig).1.dropdown
          ++ ["xdup"]))) ∧
    "xdup" ∈ (generate_full_parameter
        (generate_full_parameter ParameterGenerator.init xSliderConfig).1
        xDropdownConfig).1.slider ∧
    "xdup" ∈ (generate_full_parameter
        (generate_full_parameter ParameterGenerator.init xSliderConfig).1
        xDropdownConfig).1.dropdown :=
  C3_same_name_other_kind_succeeds
    (generate_full_parameter ParameterGenerator.init xSliderConfig).1
    xDropdownConfig "xdup" "dropdown" "X" [⟨"0", "A"⟩]
    (by decide) rfl rfl (by decide) rfl rfl

/-- Counterexample to C1: recompiling the distortion example from the state
after its first compilation grows the slider membership list by one more
entry instead of leaving its length unchanged, duplicating `distortion`. -/
theorem C1_counterexample :
    ((generate_full_parameter
        (generate_full_parameter ParameterGenerator.init distortionConfig).1
        distortionConfig).1.slider.length
      = (generate_full_parameter ParameterGenerator.init distortionConfig).1.slider.length
          + 1) ∧
    (generate_full_parameter
        (generate_full_parameter ParameterGenerator.init distortionConfig).1
        distortionConfig).1.slider.count "distortion" = 2 := by
  decide

/-- C1 amended: recompiling the same config does regenerate identical pure
artifacts (markup, default entry, formatter and parser snippets), but
`add_to_lists` performs no membership check: the second call appends the
name again, growing the snapshot's total membership by one and duplicating
the entry rather than leaving the lists unchanged in length. -/
theorem C1_recompile_same_config (g g1 g2 : ParameterGenerator) (c : Config)
    (r1 r2 : Result)
    (h1 : generate_full_parameter g c = (g1, Except.ok r1))
    (h2 : generate_full_parameter g1 c = (g2, Except.ok r2)) :
    r1.html = r2.html ∧ r1.default_param = r2.default_param ∧
    r1.display_formatter = r2.display_formatter ∧ r1.parser = r2.parser ∧
    g2.slider.length + g2.dropdown.length
      = g1.slider.length + g1.dropdown.length + 1 := by
  obtain ⟨pn, pt, hn, ht, hg1, hpn1, hdp1, hul1, hbr1⟩ := gfp_ok_elim h1
  obtain ⟨pn', pt', hn', ht', hg2, hpn2, hdp2, hul2, hbr2⟩ := gfp_ok_elim h2
  rw [hn] at hn'; rw [ht] at ht'
  injection hn' with hpe; subst hpe
  injection ht' with hte; subst hte
  subst hg2
  rcases hbr1 with ⟨hpt1, l1, mn1, mx1, hl1, hmn1, hmx1, hh1, hf1, hp1⟩ |
    ⟨hpt1, l1, os1, hl1, ho1, hh1, hf1, hp1⟩ <;>
  rcases hbr2 with ⟨hpt2, l2, mn2, mx2, hl2, hmn2, hmx2, hh2, hf2, hp2⟩ |
    ⟨hpt2, l2, os2, hl2, ho2, hh2, hf2, hp2⟩ <;>
  refine ⟨?_, ?_, ?_, ?_, add_to_lists_total_length _ _ _⟩ <;>
  simp_all

/-- The generator state after the first distortion compilation. -/
def distortionGen1 : ParameterGenerator :=
  (generate_full_parameter ParameterGenerator.init distortionConfig).1

/-- The bundle of the first distortion compilation. -/
def distortionRes1 : Result :=
  (generate_full_parameter ParameterGenerator.init distortionConfig).2.toOption.getD
    resFallback

/-- The generator state after recompiling distortion. -/
def distortionGen2 : ParameterGenerator :=
  (generate_full_parameter distortionGen1 distortionConfig).1

/-- The bundle of the second distortion compilation. -/
def distortionRes2 : Result :=
  (generate_full_parameter distortionGen1 distortionConfig).2.toOption.getD
    resFallback

/-- Witness for C1 amended: the double distortion run. -/
theorem C1_recompile_same_config_witness :
    distortionRes1.html = distortionRes2.html ∧
    distortionRes1.default_param = distortionRes2.default_param ∧
    distortionRes1.display_formatter = distortionRes2.display_formatter ∧
    distortionRes1.parser = distortionRes2.parser ∧
    distortionGen2.slider.length + distortionGen2.dropdown.length
      = distortionGen1.slider.length + distortionGen1.dropdown.length + 1 :=
  C1_recompile_same_config ParameterGenerator.init distortionGen1 distortionGen2
    distortionConfig distortionRes1 distortionRes2 (by rfl) (by rfl)

/-- Counterexample to C8: the distortion slider example (kind slider,
default 0) yields the default entry with the value inside single quotes,
not the unquoted numeric literal `distortion: 0` the claim states for
continuous descriptors. -/
theorem C8_counterexample :
    distortionRes1.default_param = "distortion: '0'" ∧
    distortionRes1.default_param ≠ "distortion: 0" := by
  decide

/-- C8 amended: the default-value artifact pairs the name with the default
value, but the value is always rendered inside single quotes, for both
kinds: continuous (slider) descriptors get a quoted token too (e.g.
`distortion: '0'`), never an unquoted numeric literal. -/
theorem C8_default_always_quoted {g g' : ParameterGenerator} {c : Config} {r : Result}
    (h : generate_full_parameter g c = (g', Except.ok r)) :
    r.default_param = r.param_name ++ ": '" ++ pyStr (c.default.getD (.str "0")) ++ "'" := by
  obtain ⟨pn, pt, _, _, _, hpn, hdp, _, _⟩ := gfp_ok_elim h
  rw [hdp, hpn]
  rfl

/-- Witness for C8 amended: the filtertype dropdown run, whose default
entry quotes the token. -/
theorem C8_default_always_quoted_witness :
    filtertypeRes.default_param
      = filtertypeRes.param_name ++ ": '"
          ++ pyStr (filtertypeConfig.default.getD (.str "0")) ++ "'" :=
  @C8_default_always_quoted ParameterGenerator.init filtertypeGen filtertypeConfig
    filtertypeRes (by rfl)

/-- `mathRound` is Mathlib's `round`. -/
theorem mathRound_eq (x : ℚ) : mathRound x = round x := (round_eq x).symm

/-- Counterexample to C4: the `db` and `semitones` round-trips are not
exact on every raw value of the legal range: at raw value 1 (legal in a
0..1000 range) the displayed value rounds to 0 and the parser returns 0,
not 1. -/
theorem C4_counterexample :
    ((0:ℤ) ≤ 1 ∧ (1:ℤ) ≤ 1000) ∧
    invDb (fwdDb 1) = 0 ∧ invDb (fwdDb 1) ≠ 1 ∧
    invSemitones (fwdSemitones 1) = 0 ∧ invSemitones (fwdSemitones 1) ≠ 1 := by
  norm_num [invDb, fwdDb, invSemitones, fwdSemitones, toFixedQ, mathRound]

/-- Multiplying back a rounded quotient lands within half the unit. -/
theorem round_remul_abs_le (x u : ℚ) (hu : 0 < u) :
    |u * (round (x / u) : ℚ) - x| ≤ u / 2 := by
  have h1 := abs_sub_round (x / u)
  have e : u * (x / u - (round (x / u) : ℚ)) = x - u * (round (x / u) : ℚ) := by
    field_simp
  have h2 : |u * (x / u - (round (x / u) : ℚ))| ≤ u * (1 / 2) := by
    rw [abs_mul, abs_of_pos hu]
    exact mul_le_mul_of_nonneg_left h1 hu.le
  rw [e, abs_sub_comm] at h2
  calc |u * (round (x / u) : ℚ) - x| ≤ u * (1 / 2) := h2
    _ = u / 2 := by ring

/-- The `percentage` codec round-trips exactly on every raw integer. -/
theorem percentage_roundtrip (v : ℤ) : invPercentage (fwdPercentage v) = v := by
  have hf : fwdPercentage v = (v : ℚ) / 10 := by
    unfold fwdPercentage toFixedQ
    rw [mathRound_eq, pow_one, div_mul_cancel₀ _ (by norm_num : (10:ℚ) ≠ 0), round_intCast]
  unfold invPercentage
  rw [hf, mathRound_eq, div_mul_cancel₀ _ (by norm_num : (10:ℚ) ≠ 0), round_intCast]

/-- The `ms` codec with the default divisor 1 round-trips exactly. -/
theorem ms_roundtrip (v : ℤ) : invMs 1 (fwdMs 1 v) = v := by
  have hf : fwdMs 1 v = (v : ℚ) := by
    unfold fwdMs toFixedQ
    rw [mathRound_eq, pow_one, div_one]
    rw [show (v:ℚ) * 10 = ((v * 10 : ℤ) : ℚ) by push_cast; ring, round_intCast]
    push_cast
    ring
  unfold invMs
  rw [hf, mathRound_eq, mul_one, round_intCast]

/-- The `db` codec recovers the raw value only up to its display rounding
granularity: one display decimal is 100 raw units, so within 50. -/
theorem db_roundtrip_bound (v : ℤ) : |invDb (fwdDb v) - v| ≤ 50 := by
  have hf : fwdDb v = (round ((v:ℚ) / 100) : ℚ) / 10 := by
    unfold fwdDb toFixedQ
    rw [mathRound_eq, pow_one, show ((v:ℚ) / 1000) * 10 = (v:ℚ) / 100 by ring]
  have he : invDb (fwdDb v) = 100 * round ((v:ℚ) / 100) := by
    unfold invDb
    rw [hf, mathRound_eq,
      show ((round ((v:ℚ) / 100) : ℚ) / 10) * 1000
          = ((100 * round ((v:ℚ) / 100) : ℤ) : ℚ) by push_cast; ring]
    exact round_intCast _
  rw [he]
  have h3 := round_remul_abs_le (v:ℚ) 100 (by norm_num)
  have h4 : |((100 * round ((v:ℚ) / 100) - v : ℤ) : ℚ)| ≤ 50 := by
    push_cast
    calc |100 * (round ((v:ℚ) / 100) : ℚ) - (v:ℚ)| ≤ 100 / 2 := h3
      _ = 50 := by norm_num
  exact_mod_cast h4

/-- The `semitones` codec recovers the raw value only up to its display
rounding granularity: one display centiunit is 10 raw units, so within 5. -/
theorem semitones_roundtrip_bound (v : ℤ) : |invSemitones (fwdSemitones v) - v| ≤ 5 := by
  have hf : fwdSemitones v = (round ((v:ℚ) / 10) : ℚ) / 100 := by
    unfold fwdSemitones toFixedQ
    rw [mathRound_eq, show ((v:ℚ) / 1000) * 10 ^ 2 = (v:ℚ) / 10 by ring]
    norm_num
  have he : invSemitones (fwdSemitones v) = 10 * round ((v:ℚ) / 10) := by
    unfold invSemitones
    rw [hf, mathRound_eq,
      show ((round ((v:ℚ) / 10) : ℚ) / 100) * 1000
          = ((10 * round ((v:ℚ) / 10) : ℤ) : ℚ) by push_cast; ring]
    exact round_intCast _
  rw [he]
  have h3 := round_remul_abs_le (v:ℚ) 10 (by norm_num)
  have h4 : |((10 * round ((v:ℚ) / 10) - v : ℤ) : ℚ)| ≤ 5 := by
    push_cast
    calc |10 * (round ((v:ℚ) / 10) : ℚ) - (v:ℚ)| ≤ 10 / 2 := h3
      _ = 5 := by norm_num
  exact_mod_cast h4

/-- The `hz` codec with its default options (min 0.1, max 20) recovers the
raw value exactly on the legal range 0..1000: the display rounding error of
0.005 Hz corresponds to about a quarter of a raw unit. -/
theorem hz_roundtrip (v : ℤ) (h0 : 0 ≤ v) (h1 : v ≤ 1000) :
    invHz (1/10) 20 (fwdHz (1/10) 20 v) = some v := by
  have hv0 : (0:ℚ) ≤ (v:ℚ) := by exact_mod_cast h0
  have hv1 : (v:ℚ) ≤ 1000 := by exact_mod_cast h1
  set k : ℤ := round (199 * (v:ℚ) / 100) with hk
  have hf : fwdHz (1/10) 20 v = ((10 + k : ℤ) : ℚ) / 100 := by
    unfold fwdHz toFixedQ
    rw [mathRound_eq,
      show (1/10 + ((v:ℚ) / 1000) * (20 - 1/10)) * 10 ^ 2
          = ((10:ℤ) : ℚ) + 199 * (v:ℚ) / 100 by push_cast; ring,
      round_int_add]
    norm_num
  have hkl : 0 ≤ k := by
    have hq : ((0:ℤ):ℚ) ≤ 199 * (v:ℚ) / 100 + 1/2 := by push_cast; linarith
    rw [hk, round_eq]
    exact Int.le_floor.mpr hq
  have hku : k ≤ 1990 := by
    rw [hk, round_eq]
    by_contra hcon
    push_neg at hcon
    have h3 : ((1991:ℤ):ℚ) ≤ 199 * (v:ℚ) / 100 + 1/2 := Int.le_floor.mp (by omega)
    push_cast at h3
    linarith
  have hkq0 : (0:ℚ) ≤ (k:ℚ) := by exact_mod_cast hkl
  have hkq1 : (k:ℚ) ≤ 1990 := by exact_mod_cast hku
  have hrange : ¬(((10 + k : ℤ) : ℚ) / 100 < 1/10 ∨ ((10 + k : ℤ) : ℚ) / 100 > 20) := by
    push_neg
    constructor
    · push_cast; linarith
    · push_cast; linarith
  rw [hf]
  unfold invHz
  rw [if_neg hrange]
  congr 1
  rw [mathRound_eq,
    show (((10 + k : ℤ) : ℚ) / 100 - 1/10) / (20 - 1/10) * 1000
        = 100 * (k:ℚ) / 199 by push_cast; ring]
  have hd := abs_sub_round (199 * (v:ℚ) / 100)
  rw [← hk] at hd
  have hb : |100 * (k:ℚ) / 199 - (v:ℚ)| ≤ 50 / 199 := by
    rw [show 100 * (k:ℚ) / 199 - (v:ℚ)
        = (100/199) * ((k:ℚ) - 199 * (v:ℚ) / 100) by ring,
      abs_mul, abs_of_pos (by norm_num : (0:ℚ) < 100/199)]
    have habs : |(k:ℚ) - 199 * (v:ℚ) / 100| ≤ 1/2 := by
      rw [abs_sub_comm]; exact hd
    calc (100/199 : ℚ) * |(k:ℚ) - 199 * (v:ℚ) / 100| ≤ (100/199) * (1/2) :=
          mul_le_mul_of_nonneg_left habs (by norm_num)
      _ = 50/199 := by norm_num
  rw [round_eq, Int.floor_eq_iff]
  obtain ⟨hbl, hbr⟩ := abs_le.mp hb
  constructor
  · linarith
  · linarith

/-- C4 amended: with each codec's default options, the emitted
forward/inverse pair recovers the raw value exactly for `percentage` and
`ms` (divisor 1), only up to the display rounding granularity for `db`
(within 50 raw units) and `semitones` (within 5 raw units), and exactly
(hence within one rounding unit) for `hz` with its default
`min_hz`/`max_hz` on the legal range 0..1000. -/
theorem C4_codec_roundtrip (v : ℤ) (h0 : 0 ≤ v) (h1 : v ≤ 1000) :
    invPercentage (fwdPercentage v) = v ∧
    invMs 1 (fwdMs 1 v) = v ∧
    |invDb (fwdDb v) - v| ≤ 50 ∧
    |invSemitones (fwdSemitones v) - v| ≤ 5 ∧
    invHz (1/10) 20 (fwdHz (1/10) 20 v) = some v :=
  ⟨percentage_roundtrip v, ms_roundtrip v, db_roundtrip_bound v,
   semitones_roundtrip_bound v, hz_roundtrip v h0 h1⟩

/-- Witness for C4 amended: the raw value 7. -/
theorem C4_codec_roundtrip_witness :
    ((0:ℤ) ≤ 7 ∧ (7:ℤ) ≤ 1000) ∧
    (invPercentage (fwdPercentage 7) = 7 ∧
     invMs 1 (fwdMs 1 7) = 7 ∧
     |invDb (fwdDb 7) - 7| ≤ 50 ∧
     |invSemitones (fwdSemitones 7) - 7| ≤ 5 ∧
     invHz (1/10) 20 (fwdHz (1/10) 20 7) = some 7) :=
  ⟨⟨by decide, by decide⟩, C4_codec_roundtrip 7 (by decide) (by decide)⟩
